import Mathlib

/-!
Shallow embedding of the GitHub Explorer core (tatayano/app-react).

Conventions of the embedding:
- JavaScript numbers are modelled as rationals; NaN arithmetic on
  non-numeric truthy inputs is outside the model (payload numeric fields
  carry numbers, null, or are absent, as the GitHub API produces them).
- Times are epoch milliseconds as rationals; Date.now() is an explicit
  parameter called now.
- Asynchronous methods are modelled as pure functions with explicit state
  passing; thrown errors are the error case of Except.
- String constants follow the source messages except that quote characters
  around interpolated values are omitted, and numeric interpolation uses
  the Lean rendering of rationals.
-/

/-- A JavaScript value, as far as the embedded code discriminates them. -/
inductive JsVal where
  | null
  | undefined
  | bool (b : Bool)
  | num (q : ℚ)
  | str (s : String)
deriving DecidableEq

/-- JavaScript truthiness for the modelled values. -/
def JsVal.truthy : JsVal → Bool
  | .null => false
  | .undefined => false
  | .bool b => b
  | .num q => q != 0
  | .str s => s != ""

/-- Is the value a string (typeof v === "string")? -/
def JsVal.isStr : JsVal → Bool
  | .str _ => true
  | _ => false

/-- Template-literal rendering of a value. -/
def JsVal.display : JsVal → String
  | .null => "null"
  | .undefined => "undefined"
  | .bool b => toString b
  | .num q => if q.den = 1 then toString q.num else toString q
  | .str s => s

/-- String.prototype.trim, modelled on the character list (the whitespace
class is the ASCII one, which covers the identifiers in play). -/
def jsTrim (s : String) : String :=
  String.mk (((s.data.dropWhile Char.isWhitespace).reverse.dropWhile Char.isWhitespace).reverse)

/-- String.prototype.toLowerCase, modelled on the character list (ASCII
case mapping). -/
def jsToLower (s : String) : String :=
  String.mk (s.data.map Char.toLower)

/-- String.prototype.startsWith, modelled on the character list. -/
def strStartsWith (s pre : String) : Bool :=
  pre.data.isPrefixOf s.data

/-- A JavaScript object: ordered field list. -/
abbrev JsObj := List (String × JsVal)

/-- Property access o[k]; a missing property reads as undefined. -/
def jsGet (o : JsObj) (k : String) : JsVal :=
  match o.find? (fun p => p.1 == k) with
  | some p => p.2
  | none => .undefined

/-- The value v || null used throughout the entity constructors. -/
def jsOrNull (v : JsVal) : JsVal :=
  if v.truthy then v else .null

/-- Math.round: round half toward positive infinity. -/
def jsRound (q : ℚ) : ℤ :=
  ⌊q + 1 / 2⌋

/-- Math.max(0, v || 0) on a count field: clamp a number at zero,
treat any falsy or non-numeric value as zero. -/
def clampCount (v : JsVal) : ℚ :=
  match v with
  | .num q => max 0 q
  | _ => 0

/-- The error taxonomy of the source: the four domain error classes of
UserRepositoryInterface.js, plain Error, and axios-level request errors. -/
inductive JsError where
  | axios (message : String) (code : Option String) (status : Option Nat)
      (statusText : String) (dataMessage : Option String)
      (headerLimit : Option String) (headerReset : Option ℚ)
  | userNotFound (username : String)
  | networkError (message : String) (cause : Option JsError)
  | rateLimitError (limit : String) (resetMs : ℚ)
  | validationError (field : String) (value : JsVal) (reason : String)
  | plainError (message : String)

/-- The error class of a value: what instanceof discriminates. -/
inductive ErrTag where
  | axios
  | userNotFound
  | network
  | rateLimit
  | validation
  | plain
deriving DecidableEq

/-- Tag accessor for pattern matching on the error class. -/
def JsError.tag : JsError → ErrTag
  | .axios _ _ _ _ _ _ _ => .axios
  | .userNotFound _ => .userNotFound
  | .networkError _ _ => .network
  | .rateLimitError _ _ => .rateLimit
  | .validationError _ _ _ => .validation
  | .plainError _ => .plain

/-- The message property of each error. -/
def JsError.message : JsError → String
  | .axios m _ _ _ _ _ _ => m
  | .userNotFound u => "User " ++ u ++ " not found"
  | .networkError m _ => m
  | .rateLimitError l r => "API rate limit exceeded. Limit: " ++ l ++ ", Reset: " ++ toString r
  | .validationError f v r =>
      "Validation failed for field " ++ f ++ " with value " ++ v.display ++ ": " ++ r
  | .plainError m => m

/-- error.response?.status - only axios errors carry a response. -/
def JsError.respStatus : JsError → Option Nat
  | .axios _ _ st _ _ _ _ => st
  | _ => none

/-!
CacheStore: the in-memory cache of main.js (createMemoryCache), generic in
the stored value type. An entry is (key, value, expiresAt).
-/

/-- The backing Map of createMemoryCache. -/
abbrev CacheStore (α : Type) := List (String × α × Option ℚ)

/-- Map.set semantics: replace in place or append. -/
def storeSet {α : Type} : CacheStore α → String → α → Option ℚ → CacheStore α
  | [], key, v, e => [(key, v, e)]
  | (k, w, f) :: rest, key, v, e =>
      if k = key then (key, v, e) :: rest else (k, w, f) :: storeSet rest key v e

/-- Map.get semantics. -/
def storeFind {α : Type} : CacheStore α → String → Option (α × Option ℚ)
  | [], _ => none
  | (k, v, e) :: rest, key => if k = key then some (v, e) else storeFind rest key

/-- Map.delete semantics. -/
def storeDelete {α : Type} : CacheStore α → String → CacheStore α
  | [], _ => []
  | (k, v, e) :: rest, key => if k = key then rest else (k, v, e) :: storeDelete rest key

/-- createMemoryCache.set with an explicit ttlSeconds argument:
a truthy ttl yields an absolute expiry, a falsy ttl (zero) yields none. -/
def cacheSet {α : Type} (store : CacheStore α) (key : String) (value : α)
    (ttlSeconds : ℚ) (now : ℚ) : CacheStore α :=
  let expiresAt := if ttlSeconds != 0 then some (now + ttlSeconds * 1000) else none
  storeSet store key value expiresAt

/-- createMemoryCache.set with the ttlSeconds argument omitted: the
source default is 300 seconds. -/
def cacheSetDefault {α : Type} (store : CacheStore α) (key : String) (value : α)
    (now : ℚ) : CacheStore α :=
  cacheSet store key value 300 now

/-- createMemoryCache.get: lazy expiry; an entry read past its expiresAt
is deleted and reported absent. Returns the read value and the store after
the read. -/
def cacheGet {α : Type} (store : CacheStore α) (key : String) (now : ℚ) :
    Option α × CacheStore α :=
  match storeFind store key with
  | none => (none, store)
  | some (v, e) =>
    match e with
    | some limit => if now > limit then (none, storeDelete store key) else (some v, store)
    | none => (some v, store)

/-- createMemoryCache.del. -/
def cacheDel {α : Type} (store : CacheStore α) (key : String) : CacheStore α :=
  storeDelete store key

/-- createMemoryCache.flush. -/
def cacheFlush {α : Type} (_store : CacheStore α) : CacheStore α := []

/-!
HttpClient (infrastructure/http/HttpClient.js). A per-attempt outcome of
this.client.request is either a response or an axios error; the whole
attempt schedule is an explicit function from the attempt number.
-/

/-- An axios response as far as the repository inspects it: a status and
an optional JSON object body (none models a missing or null body). -/
structure HttpResponse where
  status : Nat
  data : Option JsObj
deriving DecidableEq

/-- One underlying axios attempt: a response or an axios error. -/
abbrev AttemptOutcome := Sum HttpResponse JsError

/-- HttpClient.shouldRetry. The error examined is whatever the axios call
threw; only axios errors carry code and response.status. -/
def HttpClient.shouldRetry (retryAttempts : Nat) (error : JsError) (attempt : Nat) : Bool :=
  if retryAttempts ≤ attempt then false
  else
    match error with
    | .axios _ code status _ _ _ _ =>
      if (match status with | some s => decide (400 ≤ s) && decide (s < 500) && (s != 429) | none => false) then
        false
      else
        let retryable := ["ECONNRESET", "ETIMEDOUT", "ENOTFOUND", "ECONNREFUSED"]
        let isNetworkErr := match code with | some c => retryable.contains c | none => false
        let isServerError := match status with | some s => decide (500 ≤ s) | none => false
        let isRateLimit := status == some 429
        let isTimeout := code == some "ECONNABORTED"
        isNetworkErr || isServerError || isRateLimit || isTimeout
    | _ => false

/-- HttpClient.transformError: classify the final failure. A 429 becomes
RateLimitError with the advertised limit and the parsed reset time (or the
current time when the header is absent); an error without a response
becomes NetworkError wrapping the cause; any other HTTP status becomes
NetworkError with the status embedded. -/
def HttpClient.transformError (now : ℚ) (error : JsError) : JsError :=
  match error with
  | .axios msg _ status statusText dataMessage headerLimit headerReset =>
    if status == some 429 then
      .rateLimitError (headerLimit.getD "unknown")
        (match headerReset with | some r => r * 1000 | none => now)
    else
      match status with
      | none => .networkError ("Network error: " ++ msg) (some error)
      | some s =>
          let m := match dataMessage with | some dm => dm | none => statusText
          .networkError ("HTTP " ++ toString s ++ ": " ++ m) (some error)
  | e =>
      match e.respStatus with
      | none => .networkError ("Network error: " ++ e.message) (some e)
      | some s => .networkError ("HTTP " ++ toString s ++ ": " ++ e.message) (some e)

/-- The retry loop of HttpClient.request, counting underlying attempts.
The fuel argument equals retryAttempts - attempt + 1 at every call; the
fuel-zero case is unreachable because shouldRetry is false on the final
attempt. Returns (number of underlying calls, outcome). -/
def HttpClient.requestAux (retryAttempts : Nat) (now : ℚ)
    (outcome : Nat → AttemptOutcome) : Nat → Nat → Nat × Except JsError HttpResponse
  | _, 0 => (0, .error (.plainError "unreachable: at least one attempt is always made"))
  | attempt, fuel + 1 =>
    match outcome attempt with
    | .inl resp => (1, .ok resp)
    | .inr err =>
      if HttpClient.shouldRetry retryAttempts err attempt then
        let rest := HttpClient.requestAux retryAttempts now outcome (attempt + 1) fuel
        (rest.1 + 1, rest.2)
      else
        (1, .error (HttpClient.transformError now err))

/-- HttpClient.request: up to retryAttempts sequential attempts, then the
transformed last error is thrown. -/
def HttpClient.request (retryAttempts : Nat) (now : ℚ)
    (outcome : Nat → AttemptOutcome) : Nat × Except JsError HttpResponse :=
  HttpClient.requestAux retryAttempts now outcome 1 retryAttempts

/-!
Dates. The source calls new Date(string) on ISO-8601 timestamps from the
GitHub API and Date.prototype.toISOString for serialization. Dates are
modelled as epoch milliseconds; the calendar conversions below model the
UTC behavior of the Date builtin on that format.
-/

/-- Digit value of an ASCII digit character. -/
def digitVal (c : Char) : Nat := c.toNat - 48

/-- Days since 1970-01-01 of a civil date (proleptic Gregorian). -/
def daysFromCivil (y m d : Int) : Int :=
  let y2 := if m ≤ 2 then y - 1 else y
  let era := (if 0 ≤ y2 then y2 else y2 - 399) / 400
  let yoe := y2 - era * 400
  let mp := (m + 9) % 12
  let doy := (153 * mp + 2) / 5 + d - 1
  let doe := yoe * 365 + yoe / 4 - yoe / 100 + doy
  era * 146097 + doe - 719468

/-- Civil date (year, month, day) of a day count since 1970-01-01. -/
def civilFromDays (z0 : Int) : Int × Int × Int :=
  let z := z0 + 719468
  let era := (if 0 ≤ z then z else z - 146096) / 146097
  let doe := z - era * 146097
  let yoe := (doe - doe / 1460 + doe / 36524 - doe / 146096) / 365
  let y := yoe + era * 400
  let doy := doe - (365 * yoe + yoe / 4 - yoe / 100)
  let mp := (5 * doy + 2) / 153
  let d := doy - (153 * mp + 2) / 5 + 1
  let m := mp + (if mp < 10 then 3 else -9)
  (y + (if m ≤ 2 then 1 else 0), m, d)

/-- Parse an ISO-8601 UTC timestamp of the shapes the GitHub API and
toISOString produce (with or without milliseconds) into epoch ms. -/
def isoDateParse (s : String) : Option ℚ :=
  match s.data with
  | [y1, y2, y3, y4, '-', m1, m2, '-', d1, d2, 'T', h1, h2, ':', n1, n2, ':', s1, s2, 'Z'] =>
    if ([y1, y2, y3, y4, m1, m2, d1, d2, h1, h2, n1, n2, s1, s2].all Char.isDigit) then
      let yr : Int := (((digitVal y1 * 10 + digitVal y2) * 10 + digitVal y3) * 10 + digitVal y4 : Nat)
      let mo : Int := (digitVal m1 * 10 + digitVal m2 : Nat)
      let dy : Int := (digitVal d1 * 10 + digitVal d2 : Nat)
      let hh : Int := (digitVal h1 * 10 + digitVal h2 : Nat)
      let nn : Int := (digitVal n1 * 10 + digitVal n2 : Nat)
      let ss : Int := (digitVal s1 * 10 + digitVal s2 : Nat)
      some ((((daysFromCivil yr mo dy * 24 + hh) * 60 + nn) * 60 + ss) * 1000 : Int)
    else none
  | [y1, y2, y3, y4, '-', m1, m2, '-', d1, d2, 'T', h1, h2, ':', n1, n2, ':', s1, s2, '.', f1, f2, f3, 'Z'] =>
    if ([y1, y2, y3, y4, m1, m2, d1, d2, h1, h2, n1, n2, s1, s2, f1, f2, f3].all Char.isDigit) then
      let yr : Int := (((digitVal y1 * 10 + digitVal y2) * 10 + digitVal y3) * 10 + digitVal y4 : Nat)
      let mo : Int := (digitVal m1 * 10 + digitVal m2 : Nat)
      let dy : Int := (digitVal d1 * 10 + digitVal d2 : Nat)
      let hh : Int := (digitVal h1 * 10 + digitVal h2 : Nat)
      let nn : Int := (digitVal n1 * 10 + digitVal n2 : Nat)
      let ss : Int := (digitVal s1 * 10 + digitVal s2 : Nat)
      let ms : Int := ((digitVal f1 * 100 + digitVal f2 * 10 + digitVal f3 : Nat))
      some (((((daysFromCivil yr mo dy * 24 + hh) * 60 + nn) * 60 + ss) * 1000 + ms : Int))
    else none
  | _ => none

/-- Left-pad a natural number with zeros to the given width. -/
def padNat (width n : Nat) : String :=
  let s := toString n
  if s.length < width then String.mk (List.replicate (width - s.length) '0') ++ s else s

/-- Date.prototype.toISOString on an epoch-ms instant (clipped to an
integer, as the Date representation does). -/
def toISOString (t : ℚ) : String :=
  let ms : Int := ⌊t⌋
  let day := Int.fdiv ms 86400000
  let rem := Int.emod ms 86400000
  let c := civilFromDays day
  let hh := Int.fdiv rem 3600000
  let nn := Int.emod (Int.fdiv rem 60000) 60
  let ss := Int.emod (Int.fdiv rem 1000) 60
  let mmm := Int.emod rem 1000
  padNat 4 c.1.toNat ++ "-" ++ padNat 2 c.2.1.toNat ++ "-" ++ padNat 2 c.2.2.toNat ++
    "T" ++ padNat 2 hh.toNat ++ ":" ++ padNat 2 nn.toNat ++ ":" ++ padNat 2 ss.toNat ++
    "." ++ padNat 3 mmm.toNat ++ "Z"

/-- The parseDate helper shared by both entities: falsy input becomes
null; otherwise new Date(input), with an unparsable result becoming null.
new Date on a number clips to integer ms, on true coerces to 1. -/
def parseDate (v : JsVal) : Option ℚ :=
  if v.truthy = false then none
  else
    match v with
    | .str s => isoDateParse s
    | .num q => some (⌊q⌋ : Int)
    | .bool b => some (if b then 1 else 0)
    | _ => none

/-!
User entity (domain/entities/User.js).
-/

/-- The destructured argument object of the User constructor. -/
structure UserParams where
  id : JsVal := .undefined
  login : JsVal := .undefined
  name : JsVal := .undefined
  email : JsVal := .undefined
  bio : JsVal := .undefined
  avatarUrl : JsVal := .undefined
  htmlUrl : JsVal := .undefined
  location : JsVal := .undefined
  company : JsVal := .undefined
  blog : JsVal := .undefined
  twitterUsername : JsVal := .undefined
  followers : JsVal := .undefined
  following : JsVal := .undefined
  publicRepos : JsVal := .undefined
  createdAt : JsVal := .undefined
  updatedAt : JsVal := .undefined
deriving DecidableEq

/-- The constructed User entity. -/
structure User where
  id : JsVal
  login : JsVal
  name : JsVal
  email : JsVal
  bio : JsVal
  avatarUrl : JsVal
  htmlUrl : JsVal
  location : JsVal
  company : JsVal
  blog : JsVal
  twitterUsername : JsVal
  followers : ℚ
  following : ℚ
  publicRepos : ℚ
  createdAt : Option ℚ
  updatedAt : Option ℚ
deriving DecidableEq

/-- User.validateRequiredFields: throws a plain Error (not a typed
ValidationError) on a missing or ill-shaped required field. -/
def User.validateRequiredFields (id login avatarUrl htmlUrl : JsVal) : Except JsError Unit :=
  if id.truthy = false then .error (.plainError "User ID is required")
  else if login.truthy = false || login.isStr = false then
    .error (.plainError "User login is required and must be a string")
  else if avatarUrl.truthy = false then .error (.plainError "User avatar URL is required")
  else if htmlUrl.truthy = false then .error (.plainError "User HTML URL is required")
  else .ok ()

/-- User.formatBlogUrl: falsy or non-string becomes null, whitespace-only
becomes null, a value without protocol is prefixed with https. -/
def User.formatBlogUrl (blog : JsVal) : JsVal :=
  match blog with
  | .str s =>
    if s = "" then .null
    else
      let trimmedBlog := jsTrim s
      if trimmedBlog = "" then .null
      else if strStartsWith trimmedBlog "http://" || strStartsWith trimmedBlog "https://" then
        .str trimmedBlog
      else .str ("https://" ++ trimmedBlog)
  | _ => .null

/-- The User constructor: validate required fields, then normalize every
field exactly as the source does. -/
def User.new (p : UserParams) : Except JsError User :=
  match User.validateRequiredFields p.id p.login p.avatarUrl p.htmlUrl with
  | .error e => .error e
  | .ok _ => .ok {
    id := p.id
    login := p.login
    name := jsOrNull p.name
    email := jsOrNull p.email
    bio := jsOrNull p.bio
    avatarUrl := p.avatarUrl
    htmlUrl := p.htmlUrl
    location := jsOrNull p.location
    company := jsOrNull p.company
    blog := User.formatBlogUrl p.blog
    twitterUsername := jsOrNull p.twitterUsername
    followers := clampCount p.followers
    following := clampCount p.following
    publicRepos := clampCount p.publicRepos
    createdAt := parseDate p.createdAt
    updatedAt := parseDate p.updatedAt }

/-- User.hasCompleteProfile. -/
def User.hasCompleteProfile (u : User) : Bool :=
  u.name.truthy && u.bio.truthy && u.location.truthy

/-- User.engagementScore. -/
def User.engagementScore (u : User) : ℤ :=
  jsRound (u.followers * (7 / 10) + u.publicRepos * (3 / 10))

/-- User.isActiveUser: updated within the last 30 days of now.
The source computes the boundary with setDate(getDate() - 30), modelled
as 30 times 86400000 ms. -/
def User.isActiveUser (now : ℚ) (u : User) : Bool :=
  match u.updatedAt with
  | none => false
  | some t => t > now - 2592000000

/-- User.toJSON: plain serialized object, camel-case keys, including the
computed properties. -/
def User.toJSON (now : ℚ) (u : User) : JsObj :=
  [("id", u.id),
   ("login", u.login),
   ("name", u.name),
   ("email", u.email),
   ("bio", u.bio),
   ("avatarUrl", u.avatarUrl),
   ("htmlUrl", u.htmlUrl),
   ("location", u.location),
   ("company", u.company),
   ("blog", u.blog),
   ("twitterUsername", u.twitterUsername),
   ("followers", .num u.followers),
   ("following", .num u.following),
   ("publicRepos", .num u.publicRepos),
   ("createdAt", match u.createdAt with | some t => .str (toISOString t) | none => .undefined),
   ("updatedAt", match u.updatedAt with | some t => .str (toISOString t) | none => .undefined),
   ("hasCompleteProfile", .bool u.hasCompleteProfile),
   ("engagementScore", .num (u.engagementScore : ℚ)),
   ("isActiveUser", .bool (u.isActiveUser now))]

/-- JSON.stringify followed by JSON.parse on an object: the identity,
except that properties whose value is undefined are dropped. -/
def jsonRoundtrip (o : JsObj) : JsObj :=
  o.filter (fun p => match p.2 with | .undefined => false | _ => true)

/-- User.fromGitHubAPI: map the snake-case API payload onto the
constructor argument. -/
def User.fromGitHubAPI (apiData : JsObj) : Except JsError User :=
  User.new {
    id := jsGet apiData "id"
    login := jsGet apiData "login"
    name := jsGet apiData "name"
    email := jsGet apiData "email"
    bio := jsGet apiData "bio"
    avatarUrl := jsGet apiData "avatar_url"
    htmlUrl := jsGet apiData "html_url"
    location := jsGet apiData "location"
    company := jsGet apiData "company"
    blog := jsGet apiData "blog"
    twitterUsername := jsGet apiData "twitter_username"
    followers := jsGet apiData "followers"
    following := jsGet apiData "following"
    publicRepos := jsGet apiData "public_repos"
    createdAt := jsGet apiData "created_at"
    updatedAt := jsGet apiData "updated_at" }

/-!
GitHubUserRepository (infrastructure/repositories/GitHubUserRepository.js),
user paths. The injected httpClient.get is abstracted as a function from
the requested username to its outcome; every invocation of it is one
underlying network fetch.
-/

/-- Cache key for a user: github:user: plus the lower-cased username. -/
def GitHubUserRepository.getUserCacheKey (username : String) : String :=
  "github:user:" ++ jsToLower username

/-- GitHubUserRepository.findByUsername. The try block fetches and maps
the payload; the catch block passes NetworkError through, maps an axios
404 response to UserNotFoundError, and wraps everything else (including
the UserNotFoundError thrown for an empty body and the plain mapper
errors) into NetworkError. -/
def GitHubUserRepository.findByUsername (remote : String → Except JsError HttpResponse)
    (username : String) : Except JsError User :=
  let tryBlock : Except JsError User :=
    match remote username with
    | .error e => .error e
    | .ok response =>
      match response.data with
      | none => .error (.userNotFound username)
      | some d => User.fromGitHubAPI d
  match tryBlock with
  | .ok u => .ok u
  | .error e =>
    match e with
    | .networkError _ _ => .error e
    | _ =>
      if e.respStatus == some 404 then .error (.userNotFound username)
      else
        .error (.networkError
          ("Failed to fetch user " ++ username ++ ": " ++ e.message) (some e))

/-- GitHubUserRepository.cacheUser: serialize the entity with toJSON and
JSON.stringify and store it under the user cache key; a null or zero ttl
falls back to the default of 300 seconds. -/
def GitHubUserRepository.cacheUser (username : String) (user : User) (ttl : Option ℚ)
    (cache : CacheStore JsObj) (now : ℚ) : CacheStore JsObj :=
  let key := GitHubUserRepository.getUserCacheKey username
  let value := jsonRoundtrip (User.toJSON now user)
  let cacheTTL := match ttl with | some t => if t != 0 then t else 300 | none => 300
  cacheSet cache key value cacheTTL now

/-- GitHubUserRepository.getCachedUser: read the serialized payload and
rebuild the entity with User.fromGitHubAPI; any error during the read or
rebuild is swallowed and reported as a miss. -/
def GitHubUserRepository.getCachedUser (username : String) (cache : CacheStore JsObj)
    (now : ℚ) : Option User × CacheStore JsObj :=
  let key := GitHubUserRepository.getUserCacheKey username
  let r := cacheGet cache key now
  match r.1 with
  | none => (none, r.2)
  | some cachedValue =>
    match User.fromGitHubAPI cachedValue with
    | .ok u => (some u, r.2)
    | .error _ => (none, r.2)

/-!
GetUserUseCase (application/use-cases/GetUserUseCase.js).
-/

/-- The GitHub username format test of GetUserUseCase.validateInput:
the regex accepts one leading alphanumeric character followed by up to 38
characters that are alphanumeric or hyphens. -/
def githubUsernameTest (s : String) : Bool :=
  match s.data with
  | [] => false
  | c :: rest =>
    (c.isAlpha || c.isDigit) && rest.length ≤ 38 &&
      rest.all (fun d => d.isAlpha || d.isDigit || d == '-')

/-- GetUserUseCase.validateInput: required, string, non-empty after
trimming, and matching the username format test. -/
def GetUserUseCase.validateInput (username : JsVal) : Except JsError Unit :=
  if username.truthy = false then
    .error (.validationError "username" username "Username is required")
  else
    match username with
    | .str s =>
      let trimmedUsername := jsTrim s
      if trimmedUsername.length = 0 then
        .error (.validationError "username" username "Username cannot be empty")
      else if githubUsernameTest trimmedUsername = false then
        .error (.validationError "username" username
          "Username must contain only alphanumeric characters and hyphens, cannot start or end with hyphen, and be up to 39 characters")
      else .ok ()
    | _ => .error (.validationError "username" username "Username must be a string")

/-- GetUserUseCase.normalizeUsername. -/
def GetUserUseCase.normalizeUsername (username : String) : String :=
  jsToLower (jsTrim username)

/-- GetUserUseCase.handleError: UserNotFoundError and ValidationError are
returned unchanged; NetworkError is wrapped with the username in the
message; every other error (RateLimitError included) is wrapped into a
NetworkError. -/
def GetUserUseCase.handleError (error : JsError) (username : String) : JsError :=
  match error with
  | .userNotFound _ => error
  | .validationError _ _ _ => error
  | .networkError m _ =>
      .networkError ("Failed to fetch user " ++ username ++ ": " ++ m) (some error)
  | _ =>
      .networkError
        ("Unexpected error while fetching user " ++ username ++ ": " ++ error.message)
        (some error)

/-- GetUserUseCase.execute: validate, normalize, consult the cache when
enabled and not forced to refresh, otherwise fetch through the repository
and cache the result with a ttl of 300 seconds. Returns the outcome (the
user and the fromCache flag), the cache state after the call, and the
number of repository fetches performed. The timestamp and the presentation
metadata of the returned object, both pure functions of the user and the
clock, are not part of the modelled result. -/
def GetUserUseCase.execute (remote : String → Except JsError HttpResponse)
    (username : JsVal) (useCache forceRefresh : Bool)
    (cache : CacheStore JsObj) (now : ℚ) :
    Except JsError (User × Bool) × CacheStore JsObj × Nat :=
  match GetUserUseCase.validateInput username with
  | .error e => (.error (GetUserUseCase.handleError e username.display), cache, 0)
  | .ok _ =>
    let s := match username with | .str s => s | _ => ""
    let normalizedUsername := GetUserUseCase.normalizeUsername s
    let afterCache :=
      if useCache && !forceRefresh then
        GitHubUserRepository.getCachedUser normalizedUsername cache now
      else (none, cache)
    match afterCache.1 with
    | some cachedUser => (.ok (cachedUser, true), afterCache.2, 0)
    | none =>
      match GitHubUserRepository.findByUsername remote normalizedUsername with
      | .error e => (.error (GetUserUseCase.handleError e username.display), afterCache.2, 1)
      | .ok user =>
        let cache2 :=
          if useCache then
            GitHubUserRepository.cacheUser normalizedUsername user (some 300) afterCache.2 now
          else afterCache.2
        (.ok (user, false), cache2, 1)

/-!
Repository entity (domain/entities/Repository.js).
-/

/-- The destructured argument object of the Repository constructor. -/
structure RepoParams where
  id : JsVal := .undefined
  name : JsVal := .undefined
  fullName : JsVal := .undefined
  description : JsVal := .undefined
  htmlUrl : JsVal := .undefined
  language : JsVal := .undefined
  stargazersCount : JsVal := .undefined
  forksCount : JsVal := .undefined
  watchersCount : JsVal := .undefined
  size : JsVal := .undefined
  defaultBranch : JsVal := .undefined
  isPrivate : JsVal := .undefined
  isFork : JsVal := .undefined
  hasIssues : JsVal := .undefined
  hasProjects : JsVal := .undefined
  hasWiki : JsVal := .undefined
  hasPages : JsVal := .undefined
  createdAt : JsVal := .undefined
  updatedAt : JsVal := .undefined
  pushedAt : JsVal := .undefined
  owner : JsVal := .undefined
deriving DecidableEq

/-- The constructed Repository entity. -/
structure Repository where
  id : JsVal
  name : JsVal
  fullName : JsVal
  description : JsVal
  htmlUrl : JsVal
  language : JsVal
  stargazersCount : ℚ
  forksCount : ℚ
  watchersCount : ℚ
  size : ℚ
  defaultBranch : JsVal
  isPrivate : Bool
  isFork : Bool
  hasIssues : Bool
  hasProjects : Bool
  hasWiki : Bool
  hasPages : Bool
  createdAt : Option ℚ
  updatedAt : Option ℚ
  pushedAt : Option ℚ
  owner : JsVal
deriving DecidableEq

/-- Repository.validateRequiredFields: throws a plain Error (not a typed
ValidationError) on a missing or ill-shaped required field. -/
def Repository.validateRequiredFields (id name fullName htmlUrl : JsVal) : Except JsError Unit :=
  if id.truthy = false then .error (.plainError "Repository ID is required")
  else if name.truthy = false || name.isStr = false then
    .error (.plainError "Repository name is required and must be a string")
  else if fullName.truthy = false || fullName.isStr = false then
    .error (.plainError "Repository full name is required and must be a string")
  else if htmlUrl.truthy = false then .error (.plainError "Repository HTML URL is required")
  else .ok ()

/-- The Repository constructor: validate required fields, then normalize
every field exactly as the source does; a falsy default branch falls back
to main. -/
def Repository.new (p : RepoParams) : Except JsError Repository :=
  match Repository.validateRequiredFields p.id p.name p.fullName p.htmlUrl with
  | .error e => .error e
  | .ok _ => .ok {
    id := p.id
    name := p.name
    fullName := p.fullName
    description := jsOrNull p.description
    htmlUrl := p.htmlUrl
    language := jsOrNull p.language
    stargazersCount := clampCount p.stargazersCount
    forksCount := clampCount p.forksCount
    watchersCount := clampCount p.watchersCount
    size := clampCount p.size
    defaultBranch := if p.defaultBranch.truthy then p.defaultBranch else .str "main"
    isPrivate := p.isPrivate.truthy
    isFork := p.isFork.truthy
    hasIssues := p.hasIssues.truthy
    hasProjects := p.hasProjects.truthy
    hasWiki := p.hasWiki.truthy
    hasPages := p.hasPages.truthy
    createdAt := parseDate p.createdAt
    updatedAt := parseDate p.updatedAt
    pushedAt := parseDate p.pushedAt
    owner := p.owner }

/-- Repository.fromGitHubAPI: map the snake-case API payload onto the
constructor argument. -/
def Repository.fromGitHubAPI (apiData : JsObj) : Except JsError Repository :=
  Repository.new {
    id := jsGet apiData "id"
    name := jsGet apiData "name"
    fullName := jsGet apiData "full_name"
    description := jsGet apiData "description"
    htmlUrl := jsGet apiData "html_url"
    language := jsGet apiData "language"
    stargazersCount := jsGet apiData "stargazers_count"
    forksCount := jsGet apiData "forks_count"
    watchersCount := jsGet apiData "watchers_count"
    size := jsGet apiData "size"
    defaultBranch := jsGet apiData "default_branch"
    isPrivate := jsGet apiData "private"
    isFork := jsGet apiData "fork"
    hasIssues := jsGet apiData "has_issues"
    hasProjects := jsGet apiData "has_projects"
    hasWiki := jsGet apiData "has_wiki"
    hasPages := jsGet apiData "has_pages"
    createdAt := jsGet apiData "created_at"
    updatedAt := jsGet apiData "updated_at"
    pushedAt := jsGet apiData "pushed_at"
    owner := jsGet apiData "owner" }

/-- Repository.popularityScore: 3 stars + 2 forks + 1 watcher, rounded. -/
def Repository.popularityScore (r : Repository) : ℤ :=
  jsRound (r.stargazersCount * 3 + r.forksCount * 2 + r.watchersCount * 1)

/-- Repository.isActiveRepository: pushed within the last 30 days of now
(the source computes the boundary with setDate(getDate() - 30)). -/
def Repository.isActiveRepository (now : ℚ) (r : Repository) : Bool :=
  match r.pushedAt with
  | none => false
  | some t => t > now - 2592000000

/-- Repository.isPopular: at least 100 stars. -/
def Repository.isPopular (r : Repository) : Bool :=
  decide (100 ≤ r.stargazersCount)

/-- Repository.isWellMaintained. -/
def Repository.isWellMaintained (now : ℚ) (r : Repository) : Bool :=
  r.hasIssues && r.hasWiki && r.isActiveRepository now

/-- Repository.ageInDays: ceiling of the absolute age in days, null when
there is no creation date. -/
def Repository.ageInDays (now : ℚ) (r : Repository) : Option ℤ :=
  match r.createdAt with
  | none => none
  | some t => some ⌈|now - t| / 86400000⌉

/-- Repository.isNewRepository: age at most 30 days. -/
def Repository.isNewRepository (now : ℚ) (r : Repository) : Bool :=
  match r.ageInDays now with
  | none => false
  | some a => decide (a ≤ 30)

/-!
GetUserRepositoriesUseCase (application/use-cases/GetUserRepositoriesUseCase.js).
-/

/-- Caller-supplied options for the repositories use case; absent fields
are treated as not provided. -/
structure RepoOptions where
  page : Option ℚ := none
  perPage : Option ℚ := none
  sort : Option String := none
  direction : Option String := none
  useCache : Option Bool := none
  forceRefresh : Option Bool := none
  includeAnalytics : Option Bool := none
  language : Option String := none
  type : Option String := none
  minStars : Option ℚ := none
  activeOnly : Option Bool := none
  customSort : Option String := none
deriving DecidableEq

/-- The merged configuration object: caller options spread over
this.defaultOptions. -/
structure RepoConfig where
  page : ℚ
  perPage : ℚ
  sort : String
  direction : String
  useCache : Bool
  forceRefresh : Bool
  includeAnalytics : Bool
  language : Option String
  type : Option String
  minStars : Option ℚ
  activeOnly : Option Bool
  customSort : Option String
deriving DecidableEq

/-- The spread { ...this.defaultOptions, ...options } at the top of
execute. -/
def mergeOptions (o : RepoOptions) : RepoConfig where
  page := o.page.getD 1
  perPage := o.perPage.getD 30
  sort := o.sort.getD "updated"
  direction := o.direction.getD "desc"
  useCache := o.useCache.getD true
  forceRefresh := o.forceRefresh.getD false
  includeAnalytics := o.includeAnalytics.getD true
  language := o.language
  type := o.type
  minStars := o.minStars
  activeOnly := o.activeOnly
  customSort := o.customSort

/-- Number.isInteger on a rational. -/
def isInteger (q : ℚ) : Bool := q.den == 1

/-- The sort values the repositories use case accepts. -/
def validSortOptions : List String := ["created", "updated", "pushed", "full_name"]

/-- The direction values the repositories use case accepts. -/
def validDirections : List String := ["asc", "desc"]

/-- GetUserRepositoriesUseCase.validateInput. Each option is checked only
when truthy: a zero page or perPage and an empty sort or direction skip
their check entirely. -/
def GetUserRepositoriesUseCase.validateInput (username : JsVal) (options : RepoConfig) :
    Except JsError Unit :=
  if (match username with | .str s => jsTrim s != "" | _ => false) = false then
    .error (.validationError "username" username
      "Username is required and must be a non-empty string")
  else if (options.page != 0) && (!(isInteger options.page) || decide (options.page < 1)) then
    .error (.validationError "page" (.num options.page) "Page must be a positive integer")
  else if (options.perPage != 0) &&
      (!(isInteger options.perPage) || decide (options.perPage < 1) || decide (100 < options.perPage)) then
    .error (.validationError "perPage" (.num options.perPage)
      "PerPage must be an integer between 1 and 100")
  else if (options.sort != "") && !(validSortOptions.contains options.sort) then
    .error (.validationError "sort" (.str options.sort)
      ("Sort must be one of: " ++ String.intercalate ", " validSortOptions))
  else if (options.direction != "") && !(validDirections.contains options.direction) then
    .error (.validationError "direction" (.str options.direction)
      ("Direction must be one of: " ++ String.intercalate ", " validDirections))
  else .ok ()

/-- GetUserRepositoriesUseCase.applyFilters: language, fork/source type,
minimum stars, and active-only filters, AND-combined, each applied only
when its option is truthy. -/
def GetUserRepositoriesUseCase.applyFilters (now : ℚ) (options : RepoConfig)
    (repositories : List Repository) : List Repository :=
  let f1 :=
    match options.language with
    | some l =>
      if l != "" then
        repositories.filter (fun r =>
          r.language.truthy &&
            (match r.language with | .str rl => jsToLower rl == jsToLower l | _ => false))
      else repositories
    | none => repositories
  let f2 :=
    if options.type == some "fork" then f1.filter (fun r => r.isFork)
    else if options.type == some "source" then f1.filter (fun r => !r.isFork)
    else f1
  let f3 :=
    match options.minStars with
    | some m => if m != 0 then f2.filter (fun r => decide (m ≤ r.stargazersCount)) else f2
    | none => f2
  match options.activeOnly with
  | some b => if b then f3.filter (Repository.isActiveRepository now) else f3
  | none => f3

/-- Stable insertion of an element into a list sorted by the comparator
le; models the stable sort of the JS runtime. -/
def insertLe {α : Type} (le : α → α → Bool) (x : α) : List α → List α
  | [] => [x]
  | y :: ys => if le x y then x :: y :: ys else y :: insertLe le x ys

/-- Stable sort by the comparator le (le a b models comparator(a,b) <= 0). -/
def sortLe {α : Type} (le : α → α → Bool) : List α → List α
  | [] => []
  | x :: xs => insertLe le x (sortLe le xs)

/-- The null-last language comparator of the custom language sort,
as a le relation (comparator(a,b) <= 0). -/
def languageLe (a b : Repository) : Bool :=
  if !a.language.truthy && !b.language.truthy then true
  else if !a.language.truthy then false
  else if !b.language.truthy then true
  else a.language.display ≤ b.language.display

/-- GetUserRepositoriesUseCase.applySorting: the custom sorts beyond the
remote sort parameter; any falsy or unknown customSort returns the list
unchanged (the source returns a copy). String comparisons model
localeCompare as code-point order. -/
def GetUserRepositoriesUseCase.applySorting (options : RepoConfig)
    (repositories : List Repository) : List Repository :=
  match options.customSort with
  | none => repositories
  | some cs =>
    if cs = "popularity" then
      sortLe (fun a b => decide (b.popularityScore ≤ a.popularityScore)) repositories
    else if cs = "stars" then
      sortLe (fun a b => decide (b.stargazersCount ≤ a.stargazersCount)) repositories
    else if cs = "forks" then
      sortLe (fun a b => decide (b.forksCount ≤ a.forksCount)) repositories
    else if cs = "size" then
      sortLe (fun a b => decide (b.size ≤ a.size)) repositories
    else if cs = "name" then
      sortLe (fun a b => a.name.display ≤ b.name.display) repositories
    else if cs = "language" then
      sortLe languageLe repositories
    else repositories

/-- The overview block of the analytics. -/
structure RepoOverview where
  totalRepositories : ℕ
  publicRepositories : ℕ
  forkedRepositories : ℕ
  originalRepositories : ℕ
deriving DecidableEq

/-- One row of the language distribution. -/
structure LangStat where
  language : String
  repositories : ℕ
  totalStars : ℚ
  percentage : ℤ
deriving DecidableEq

/-- The languages block of the analytics. -/
structure LangBlock where
  total : ℕ
  mostUsed : Option String
  distribution : List LangStat
  diversity : ℤ
deriving DecidableEq

/-- The activity block of the analytics. -/
structure ActivityBlock where
  activeRepositories : ℕ
  inactiveRepositories : ℕ
  newRepositories : ℕ
  activityPercentage : ℤ
  averageAge : ℤ
deriving DecidableEq

/-- One row of the top-repositories list. -/
structure TopRepo where
  name : JsVal
  stars : ℚ
  forks : ℚ
  language : JsVal
deriving DecidableEq

/-- The popularity block of the analytics. -/
structure PopularityBlock where
  totalStars : ℚ
  totalForks : ℚ
  popularRepositories : ℕ
  averageStars : ℤ
  topRepositories : List TopRepo
deriving DecidableEq

/-- The trends block of the analytics. -/
structure TrendsBlock where
  recentActivity : ℕ
  growth : ℕ
  momentum : ℤ
deriving DecidableEq

/-- The whole analytics object. -/
structure Analytics where
  overview : RepoOverview
  languages : LangBlock
  activity : ActivityBlock
  popularity : PopularityBlock
  trends : TrendsBlock
deriving DecidableEq

/-- The object keys of the languageCount accumulation: distinct truthy
languages in first-occurrence order (JS object key order), coerced to
strings as object keys are. -/
def langKeys (repositories : List Repository) : List String :=
  repositories.foldl
    (fun acc r =>
      if r.language.truthy then
        if acc.contains r.language.display then acc else acc ++ [r.language.display]
      else acc)
    []

/-- languageCount[k]. -/
def langRepoCount (repositories : List Repository) (k : String) : ℕ :=
  (repositories.filter (fun r => r.language.truthy && r.language.display == k)).length

/-- languageStars[k]. -/
def langStarCount (repositories : List Repository) (k : String) : ℚ :=
  ((repositories.filter (fun r => r.language.truthy && r.language.display == k)).map
    (fun r => r.stargazersCount)).sum

/-- GetUserRepositoriesUseCase.analyzeLanguages. -/
def GetUserRepositoriesUseCase.analyzeLanguages (repositories : List Repository) : LangBlock :=
  let keys := langKeys repositories
  let languages : List LangStat := keys.map (fun k =>
    { language := k
      repositories := langRepoCount repositories k
      totalStars := langStarCount repositories k
      percentage := jsRound ((langRepoCount repositories k : ℚ) / (repositories.length : ℚ) * 100) })
  let sortedLangs := sortLe (fun a b => decide (b.repositories ≤ a.repositories)) languages
  { total := keys.length
    mostUsed := match sortedLangs with | [] => none | l :: _ => some l.language
    distribution := sortedLangs.take 10
    diversity := jsRound ((keys.length : ℚ) / (repositories.length : ℚ) * 100) }

/-- GetUserRepositoriesUseCase.calculateAverageAge. -/
def GetUserRepositoriesUseCase.calculateAverageAge (now : ℚ)
    (repositories : List Repository) : ℤ :=
  let ages := repositories.filterMap (Repository.ageInDays now)
  if ages.length = 0 then 0 else jsRound ((ages.sum : ℚ) / (ages.length : ℚ))

/-- GetUserRepositoriesUseCase.analyzeActivity. -/
def GetUserRepositoriesUseCase.analyzeActivity (now : ℚ)
    (repositories : List Repository) : ActivityBlock :=
  let activeRepos := repositories.filter (Repository.isActiveRepository now)
  let inactiveRepos := repositories.filter (fun r => !(r.isActiveRepository now))
  let newRepos := repositories.filter (Repository.isNewRepository now)
  { activeRepositories := activeRepos.length
    inactiveRepositories := inactiveRepos.length
    newRepositories := newRepos.length
    activityPercentage := jsRound ((activeRepos.length : ℚ) / (repositories.length : ℚ) * 100)
    averageAge := GetUserRepositoriesUseCase.calculateAverageAge now repositories }

/-- GetUserRepositoriesUseCase.analyzePopularity. -/
def GetUserRepositoriesUseCase.analyzePopularity (repositories : List Repository) :
    PopularityBlock :=
  let totalStars := (repositories.map (fun r => r.stargazersCount)).sum
  let totalForks := (repositories.map (fun r => r.forksCount)).sum
  let popularRepos := repositories.filter (Repository.isPopular)
  let topRepos :=
    (sortLe (fun a b => decide (b.stargazersCount ≤ a.stargazersCount))
      (repositories.filter (fun r => decide (0 < r.stargazersCount)))).take 5
  { totalStars := totalStars
    totalForks := totalForks
    popularRepositories := popularRepos.length
    averageStars := jsRound (totalStars / (repositories.length : ℚ))
    topRepositories := topRepos.map (fun r =>
      { name := r.name, stars := r.stargazersCount, forks := r.forksCount,
        language := r.language }) }

/-- GetUserRepositoriesUseCase.calculateMomentum: 50 times the active
ratio plus 10 times the natural logarithm of the mean star count plus
one, rounded. -/
noncomputable def GetUserRepositoriesUseCase.calculateMomentum (now : ℚ)
    (repositories : List Repository) : ℤ :=
  if repositories.length = 0 then 0
  else
    let recentActivity := (repositories.filter (Repository.isActiveRepository now)).length
    let averageStars : ℚ :=
      (repositories.map (fun r => r.stargazersCount)).sum / (repositories.length : ℚ)
    ⌊(recentActivity : ℝ) / (repositories.length : ℝ) * 50 +
      Real.log ((averageStars : ℝ) + 1) * 10 + 1 / 2⌋

/-- GetUserRepositoriesUseCase.analyzeTrends. -/
noncomputable def GetUserRepositoriesUseCase.analyzeTrends (now : ℚ)
    (repositories : List Repository) : TrendsBlock :=
  { recentActivity := (repositories.filter (Repository.isActiveRepository now)).length
    growth := (repositories.filter (Repository.isNewRepository now)).length
    momentum := GetUserRepositoriesUseCase.calculateMomentum now repositories }

/-- GetUserRepositoriesUseCase.generateAnalytics: null for an empty set,
otherwise the four analysis blocks over the given set. -/
noncomputable def GetUserRepositoriesUseCase.generateAnalytics (now : ℚ)
    (repositories : List Repository) : Option Analytics :=
  if repositories.length = 0 then none
  else some
    { overview :=
        { totalRepositories := repositories.length
          publicRepositories := (repositories.filter (fun r => !r.isPrivate)).length
          forkedRepositories := (repositories.filter (fun r => r.isFork)).length
          originalRepositories := (repositories.filter (fun r => !r.isFork)).length }
      languages := GetUserRepositoriesUseCase.analyzeLanguages repositories
      activity := GetUserRepositoriesUseCase.analyzeActivity now repositories
      popularity := GetUserRepositoriesUseCase.analyzePopularity repositories
      trends := GetUserRepositoriesUseCase.analyzeTrends now repositories }

/-- The byType partition. -/
structure ByType where
  original : List Repository
  forked : List Repository
deriving DecidableEq

/-- The byActivity partition. -/
structure ByActivity where
  active : List Repository
  inactive : List Repository
deriving DecidableEq

/-- The byPopularity partition. -/
structure ByPopularity where
  popular : List Repository
  standard : List Repository
deriving DecidableEq

/-- The byMaintenance partition. -/
structure ByMaintenance where
  wellMaintained : List Repository
  needsAttention : List Repository
deriving DecidableEq

/-- The categorization object. -/
structure Categorization where
  byType : ByType
  byActivity : ByActivity
  byPopularity : ByPopularity
  byMaintenance : ByMaintenance
deriving DecidableEq

/-- GetUserRepositoriesUseCase.categorizeRepositories: four partitions of
the given set. -/
def GetUserRepositoriesUseCase.categorizeRepositories (now : ℚ)
    (repositories : List Repository) : Categorization :=
  { byType :=
      { original := repositories.filter (fun r => !r.isFork)
        forked := repositories.filter (fun r => r.isFork) }
    byActivity :=
      { active := repositories.filter (Repository.isActiveRepository now)
        inactive := repositories.filter (fun r => !(r.isActiveRepository now)) }
    byPopularity :=
      { popular := repositories.filter (Repository.isPopular)
        standard := repositories.filter (fun r => !r.isPopular) }
    byMaintenance :=
      { wellMaintained := repositories.filter (Repository.isWellMaintained now)
        needsAttention := repositories.filter (fun r => !(r.isWellMaintained now)) } }

/-- The statistics object. The mean size of an empty set, NaN in the
source, is 0 here (no claim touches it). -/
structure Statistics where
  total : ℕ
  totalStars : ℚ
  totalForks : ℚ
  totalWatchers : ℚ
  averageSize : ℤ
  languageCount : ℕ
deriving DecidableEq

/-- GetUserRepositoriesUseCase.generateStatistics. -/
def GetUserRepositoriesUseCase.generateStatistics (repositories : List Repository) :
    Statistics :=
  { total := repositories.length
    totalStars := (repositories.map (fun r => r.stargazersCount)).sum
    totalForks := (repositories.map (fun r => r.forksCount)).sum
    totalWatchers := (repositories.map (fun r => r.watchersCount)).sum
    averageSize := jsRound (((repositories.map (fun r => r.size)).sum) / (repositories.length : ℚ))
    languageCount := (((repositories.map (fun r => r.language)).filter JsVal.truthy).eraseDups).length }

/-- The pagination block of the processed result. -/
structure PaginationInfo where
  page : ℚ
  perPage : ℚ
  hasMore : Bool
deriving DecidableEq

/-- The result object of processRepositories. -/
structure ProcessedResult where
  repositories : List Repository
  totalCount : ℕ
  filteredCount : ℕ
  analytics : Option Analytics
  categorization : Categorization
  statistics : Statistics
  pagination : PaginationInfo

/-- GetUserRepositoriesUseCase.processRepositories: filters and the custom
sort produce the returned list, while analytics, categorization and
statistics are computed over the full fetched set. -/
noncomputable def GetUserRepositoriesUseCase.processRepositories (now : ℚ)
    (repositories : List Repository) (options : RepoConfig) : ProcessedResult :=
  let filteredRepositories := GetUserRepositoriesUseCase.applyFilters now options repositories
  let sortedRepositories := GetUserRepositoriesUseCase.applySorting options filteredRepositories
  { repositories := sortedRepositories
    totalCount := repositories.length
    filteredCount := filteredRepositories.length
    analytics :=
      if options.includeAnalytics then
        GetUserRepositoriesUseCase.generateAnalytics now repositories
      else none
    categorization := GetUserRepositoriesUseCase.categorizeRepositories now repositories
    statistics := GetUserRepositoriesUseCase.generateStatistics repositories
    pagination :=
      { page := options.page
        perPage := options.perPage
        hasMore := (sortedRepositories.length : ℚ) == options.perPage } }

/-!
Concrete inputs used by witnesses and counterexamples.
-/

/-- A repository payload whose default branch is null. -/
def repoParamsNullBranch : RepoParams :=
  { id := .num 1, name := .str "repo", fullName := .str "octo/repo",
    htmlUrl := .str "https://example.test/repo", defaultBranch := .null }

/-- A user payload whose blog has no protocol. -/
def userParamsPlainBlog : UserParams :=
  { id := .num 1, login := .str "octocat", avatarUrl := .str "a",
    htmlUrl := .str "h", blog := .str "example.test" }

/-- All required User fields present and well-shaped, as
User.validateRequiredFields checks them. -/
def userRequiredOk (p : UserParams) : Bool :=
  p.id.truthy && (p.login.truthy && p.login.isStr) && p.avatarUrl.truthy && p.htmlUrl.truthy

/-- All required Repository fields present and well-shaped, as
Repository.validateRequiredFields checks them. -/
def repoRequiredOk (p : RepoParams) : Bool :=
  p.id.truthy && (p.name.truthy && p.name.isStr) && (p.fullName.truthy && p.fullName.isStr) &&
    p.htmlUrl.truthy

/-- The remote payload for the octocat scenario. -/
def octocatPayload : JsObj :=
  [("id", .num 1), ("login", .str "octocat"),
   ("avatar_url", .str "https://example.test/octocat.png"),
   ("html_url", .str "https://example.test/octocat")]

/-- A remote that answers every fetch with the octocat payload. -/
def octocatRemote : String → Except JsError HttpResponse :=
  fun _ => .ok { status := 200, data := some octocatPayload }

/-- The entity User.fromGitHubAPI builds from octocatPayload. -/
def octocatUser : User :=
  { id := .num 1, login := .str "octocat", name := .null, email := .null, bio := .null,
    avatarUrl := .str "https://example.test/octocat.png",
    htmlUrl := .str "https://example.test/octocat",
    location := .null, company := .null, blog := .null, twitterUsername := .null,
    followers := 0, following := 0, publicRepos := 0, createdAt := none, updatedAt := none }

/-- A minimal repository entity for the categorization scenario. -/
def mkTestRepo (nm : String) (fork : Bool) : Repository :=
  { id := .num 1, name := .str nm, fullName := .str nm, description := .null,
    htmlUrl := .str "https://example.test/r", language := .null, stargazersCount := 0,
    forksCount := 0, watchersCount := 0, size := 0, defaultBranch := .str "main",
    isPrivate := false, isFork := fork, hasIssues := false, hasProjects := false,
    hasWiki := false, hasPages := false, createdAt := none, updatedAt := none,
    pushedAt := none, owner := .undefined }

/-- Five owned items: two forks and three originals. -/
def fiveRepos : List Repository :=
  [mkTestRepo "orig1" false, mkTestRepo "fork1" true, mkTestRepo "orig2" false,
   mkTestRepo "fork2" true, mkTestRepo "orig3" false]

/-!
Helper lemmas shared by the claim theorems.
-/

/-- Reading back a key just written into the store. -/
theorem storeFind_storeSet {α : Type} (s : CacheStore α) (k : String) (v : α)
    (e : Option ℚ) : storeFind (storeSet s k v e) k = some (v, e) := by
  induction s with
  | nil => simp [storeSet, storeFind]
  | cons hd tl ih =>
    obtain ⟨k0, v0, e0⟩ := hd
    by_cases h : k0 = k
    · simp [storeSet, storeFind, h]
    · simp [storeSet, storeFind, h, ih]

/-- User.formatBlogUrl yields null or a string carrying a protocol. -/
theorem formatBlogUrl_protocol (b : JsVal) :
    User.formatBlogUrl b = .null ∨
      ∃ s, User.formatBlogUrl b = .str s ∧
        (strStartsWith s "http://" = true ∨ strStartsWith s "https://" = true) := by
  match b with
  | .null | .undefined | .bool _ | .num _ => left; rfl
  | .str s =>
    by_cases h0 : s = ""
    · left; simp [User.formatBlogUrl, h0]
    · by_cases h1 : jsTrim s = ""
      · left; simp [User.formatBlogUrl, h0, h1]
      · by_cases h2 : strStartsWith (jsTrim s) "http://" = true ∨
            strStartsWith (jsTrim s) "https://" = true
        · right
          refine ⟨jsTrim s, ?_, h2⟩
          rcases h2 with h2 | h2 <;> simp [User.formatBlogUrl, h0, h1, h2]
        · right
          push_neg at h2
          obtain ⟨ha, hb⟩ := h2
          refine ⟨"https://" ++ jsTrim s, ?_, ?_⟩
          · simp [User.formatBlogUrl, h0, h1, Bool.eq_false_iff.mpr ha, Bool.eq_false_iff.mpr hb]
          · right
            unfold strStartsWith
            rw [String.data_append]
            exact List.isPrefixOf_iff_prefix.mpr (List.prefix_append _ _)

/-!
Claim theorems.
-/

/-- C5 (amended): a ttl of zero stores the entry without expiration, so a
get at any later time still returns it; a nonzero ttl t makes the entry
absent once more than t seconds have elapsed; an omitted ttl is the
source default of 300 seconds, not "no expiration". -/
theorem c5_ttl_semantics {α : Type} (store : CacheStore α) (key : String) (v : α)
    (t now later : ℚ) :
    (cacheGet (cacheSet store key v 0 now) key later).1 = some v ∧
    (t ≠ 0 → now + t * 1000 < later →
      (cacheGet (cacheSet store key v t now) key later).1 = none) ∧
    cacheSetDefault store key v now = cacheSet store key v 300 now := by
  refine ⟨?_, ?_, rfl⟩
  · simp [cacheSet, cacheGet, storeFind_storeSet]
  · intro ht hl
    simp [cacheSet, cacheGet, storeFind_storeSet, ht, hl]

/-- C5 witness: concrete instances of the amended ttl semantics. -/
theorem c5_ttl_semantics_witness :
    (cacheGet (cacheSet ([] : CacheStore Nat) "k" 7 0 0) "k" 999999).1 = some 7 ∧
    (cacheGet (cacheSet ([] : CacheStore Nat) "k" 7 1 0) "k" 1001).1 = none := by
  refine ⟨(c5_ttl_semantics [] "k" 7 1 0 999999).1,
    (c5_ttl_semantics [] "k" 7 1 0 1001).2.1 (by norm_num) (by norm_num)⟩

/-- C5 counterexample: with the ttlSeconds argument omitted the entry is
stored with the default 300-second ttl, so a read 300001 ms later misses,
refuting "no expiration when omitted". -/
theorem c5_omitted_ttl_expires :
    (cacheGet (cacheSetDefault ([] : CacheStore String) "k" "v" 0) "k" 300001).1 = none := by
  have h : ((0 : ℚ) + 300 * 1000) = 300000 := by norm_num
  simp [cacheSetDefault, cacheSet, cacheGet, storeSet, storeFind, h]
  norm_num

/-- C3 counterexample: a RateLimitError reaching GetUserUseCase.handleError
is re-wrapped into a NetworkError, not surfaced as RateLimitError. -/
theorem c3_ratelimit_rewrapped :
    (GetUserUseCase.handleError (.rateLimitError "60" 0) "octocat").tag = ErrTag.network ∧
    ErrTag.network ≠ ErrTag.rateLimit :=
  ⟨rfl, by decide⟩

/-- C3 (amended): handleError preserves UserNotFoundError and
ValidationError unchanged and re-wraps every other error - RateLimitError
included - into a NetworkError. -/
theorem c3_taxonomy (e : JsError) (u : String) :
    (GetUserUseCase.handleError e u).tag =
      (if e.tag = ErrTag.userNotFound ∨ e.tag = ErrTag.validation then e.tag
       else ErrTag.network) := by
  cases e <;> simp [GetUserUseCase.handleError, JsError.tag]

/-- C9: a Repository constructed from a payload whose default-branch field
is absent, null or empty gets the default branch main; a non-empty string
default branch is kept verbatim. -/
theorem c9_default_branch (p : RepoParams) (r : Repository)
    (h : Repository.new p = .ok r) :
    ((p.defaultBranch = .undefined ∨ p.defaultBranch = .null ∨ p.defaultBranch = .str "") →
      r.defaultBranch = .str "main") ∧
    (∀ s, p.defaultBranch = .str s → s ≠ "" → r.defaultBranch = .str s) := by
  unfold Repository.new at h
  cases hv : Repository.validateRequiredFields p.id p.name p.fullName p.htmlUrl with
  | error e => rw [hv] at h; cases h
  | ok _ =>
    rw [hv] at h
    injection h with h2
    subst h2
    constructor
    · rintro (hd | hd | hd) <;> simp [hd, JsVal.truthy]
    · intro s hs hne
      have ht : (JsVal.str s).truthy = true := by simp [JsVal.truthy, hne]
      simp [hs, ht]

/-- C9 witness: a null default branch becomes main on a concretely
constructed entity. -/
theorem c9_default_branch_witness :
    (match Repository.new repoParamsNullBranch with
     | .ok r => r.defaultBranch = .str "main"
     | .error _ => False) := by
  exact (c9_default_branch repoParamsNullBranch _ rfl).1 (Or.inr (Or.inl rfl))

/-- C10: every constructed User has a blog field that is either null or a
string starting with a protocol; a non-empty blog value without protocol
is prefixed with https at construction (the entity record is immutable,
so the invariant holds for its whole lifetime). -/
theorem c10_blog_invariant (p : UserParams) (u : User) (h : User.new p = .ok u) :
    (u.blog = .null ∨ ∃ s, u.blog = .str s ∧
      (strStartsWith s "http://" = true ∨ strStartsWith s "https://" = true)) ∧
    (∀ s, p.blog = .str s → jsTrim s ≠ "" →
      strStartsWith (jsTrim s) "http://" = false →
      strStartsWith (jsTrim s) "https://" = false →
      u.blog = .str ("https://" ++ jsTrim s)) := by
  unfold User.new at h
  cases hv : User.validateRequiredFields p.id p.login p.avatarUrl p.htmlUrl with
  | error e => rw [hv] at h; cases h
  | ok _ =>
    rw [hv] at h
    injection h with h2
    subst h2
    constructor
    · exact formatBlogUrl_protocol p.blog
    · intro s hs hne h1 h2
      have h0 : s ≠ "" := by
        intro contra
        exact hne (by rw [contra]; rfl)
      show User.formatBlogUrl p.blog = _
      rw [hs]
      simp [User.formatBlogUrl, h0, hne, h1, h2]

/-- C10 witness: a blog value without protocol on a concretely constructed
entity. -/
theorem c10_blog_invariant_witness :
    (match User.new userParamsPlainBlog with
     | .ok u => u.blog = .str ("https://" ++ jsTrim "example.test")
     | .error _ => False) := by
  exact (c10_blog_invariant userParamsPlainBlog _ rfl).2 "example.test" rfl
    (by decide) (by decide) (by decide)

/-- C7 counterexample: a payload with a missing required field makes the
mapper throw a plain Error carrying only a message, not the typed
ValidationError with field, value and reason. -/
theorem c7_plain_not_validation :
    User.fromGitHubAPI [("login", .str "octocat"), ("avatar_url", .str "a"), ("html_url", .str "h")] =
      .error (.plainError "User ID is required") ∧
    (JsError.plainError "User ID is required").tag ≠ ErrTag.validation ∧
    Repository.fromGitHubAPI [("id", .num 1), ("name", .str "repo"), ("full_name", .str "octo/repo")] =
      .error (.plainError "Repository HTML URL is required") ∧
    (JsError.plainError "Repository HTML URL is required").tag ≠ ErrTag.validation :=
  ⟨rfl, by decide, rfl, by decide⟩

/-- C7 (amended): the mapper constructors are total-or-throwing - with all
required fields present and well-shaped they return an entity, otherwise
they throw - but the thrown error is a plain Error, not ValidationError. -/
theorem c7_total_or_throwing (p : UserParams) (q : RepoParams) :
    (userRequiredOk p = true → ∃ u, User.new p = .ok u) ∧
    (userRequiredOk p = false → ∃ m, User.new p = .error (.plainError m)) ∧
    (repoRequiredOk q = true → ∃ r, Repository.new q = .ok r) ∧
    (repoRequiredOk q = false → ∃ m, Repository.new q = .error (.plainError m)) := by
  refine ⟨?_, ?_, ?_, ?_⟩
  · intro h
    simp only [userRequiredOk, Bool.and_eq_true] at h
    obtain ⟨⟨⟨h1, h2, h3⟩, h4⟩, h5⟩ := h
    exact ⟨_, by simp [User.new, User.validateRequiredFields, h1, h2, h3, h4, h5]; rfl⟩
  · intro h
    cases h1 : p.id.truthy with
    | false =>
      exact ⟨"User ID is required", by simp [User.new, User.validateRequiredFields, h1]⟩
    | true =>
      cases h2 : p.login.truthy with
      | false =>
        exact ⟨"User login is required and must be a string",
          by simp [User.new, User.validateRequiredFields, h1, h2]⟩
      | true =>
        cases h3 : p.login.isStr with
        | false =>
          exact ⟨"User login is required and must be a string",
            by simp [User.new, User.validateRequiredFields, h1, h2, h3]⟩
        | true =>
          cases h4 : p.avatarUrl.truthy with
          | false =>
            exact ⟨"User avatar URL is required",
              by simp [User.new, User.validateRequiredFields, h1, h2, h3, h4]⟩
          | true =>
            cases h5 : p.htmlUrl.truthy with
            | false =>
              exact ⟨"User HTML URL is required",
                by simp [User.new, User.validateRequiredFields, h1, h2, h3, h4, h5]⟩
            | true =>
              rw [userRequiredOk, h1, h2, h3, h4, h5] at h
              simp at h
  · intro h
    simp only [repoRequiredOk, Bool.and_eq_true] at h
    obtain ⟨⟨⟨h1, h2, h3⟩, ⟨h4, h5⟩⟩, h6⟩ := h
    exact ⟨_, by simp [Repository.new, Repository.validateRequiredFields, h1, h2, h3, h4, h5, h6]; rfl⟩
  · intro h
    cases h1 : q.id.truthy with
    | false =>
      exact ⟨"Repository ID is required",
        by simp [Repository.new, Repository.validateRequiredFields, h1]⟩
    | true =>
      cases h2 : q.name.truthy with
      | false =>
        exact ⟨"Repository name is required and must be a string",
          by simp [Repository.new, Repository.validateRequiredFields, h1, h2]⟩
      | true =>
        cases h3 : q.name.isStr with
        | false =>
          exact ⟨"Repository name is required and must be a string",
            by simp [Repository.new, Repository.validateRequiredFields, h1, h2, h3]⟩
        | true =>
          cases h4 : q.fullName.truthy with
          | false =>
            exact ⟨"Repository full name is required and must be a string",
              by simp [Repository.new, Repository.validateRequiredFields, h1, h2, h3, h4]⟩
          | true =>
            cases h5 : q.fullName.isStr with
            | false =>
              exact ⟨"Repository full name is required and must be a string",
                by simp [Repository.new, Repository.validateRequiredFields, h1, h2, h3, h4, h5]⟩
            | true =>
              cases h6 : q.htmlUrl.truthy with
              | false =>
                exact ⟨"Repository HTML URL is required",
                  by simp [Repository.new, Repository.validateRequiredFields, h1, h2, h3, h4, h5, h6]⟩
              | true =>
                rw [repoRequiredOk, h1, h2, h3, h4, h5, h6] at h
                simp at h

/-- C7 witness: concrete instances of the total-or-throwing behavior. -/
theorem c7_total_or_throwing_witness :
    (∃ u, User.new userParamsPlainBlog = .ok u) ∧
    (∃ m, User.new {} = .error (.plainError m)) ∧
    (∃ r, Repository.new repoParamsNullBranch = .ok r) ∧
    (∃ m, Repository.new {} = .error (.plainError m)) :=
  ⟨(c7_total_or_throwing userParamsPlainBlog repoParamsNullBranch).1 (by decide),
   (c7_total_or_throwing {} {}).2.1 (by decide),
   (c7_total_or_throwing userParamsPlainBlog repoParamsNullBranch).2.2.1 (by decide),
   (c7_total_or_throwing {} {}).2.2.2 (by decide)⟩

/-- C6 counterexample: a page of 0 is falsy, skips its range check and
passes validation, and the accepted sort literal is full_name, so the
hyphenated spelling full-name is rejected - both against the claim. -/
theorem c6_page_zero_and_full_name :
    GetUserRepositoriesUseCase.validateInput (.str "octocat") (mergeOptions { page := some 0 }) =
      .ok () ∧
    GetUserRepositoriesUseCase.validateInput (.str "octocat") (mergeOptions { sort := some "full-name" }) =
      .error (.validationError "sort" (.str "full-name")
        "Sort must be one of: created, updated, pushed, full_name") :=
  ⟨rfl, rfl⟩

/-- C6 (amended): with a valid username, validation accepts a merged
configuration exactly when every truthy option is in range - page a
positive integer, perPage an integer between 1 and 100, sort among
created, updated, pushed, full_name (with an underscore), direction asc
or desc - while falsy values (such as a page of 0 or an empty sort) skip
their check entirely. -/
theorem c6_truthy_validation (u : String) (c : RepoConfig) (hu : jsTrim u ≠ "") :
    GetUserRepositoriesUseCase.validateInput (.str u) c = .ok () ↔
      ((c.page = 0 ∨ (isInteger c.page = true ∧ 1 ≤ c.page)) ∧
       (c.perPage = 0 ∨ (isInteger c.perPage = true ∧ 1 ≤ c.perPage ∧ c.perPage ≤ 100)) ∧
       (c.sort = "" ∨ c.sort ∈ validSortOptions) ∧
       (c.direction = "" ∨ c.direction ∈ validDirections)) := by
  have g1 : (((c.page != 0) && (!(isInteger c.page) || decide (c.page < 1))) = true) ↔
      ¬(c.page = 0 ∨ (isInteger c.page = true ∧ 1 ≤ c.page)) := by
    rw [Bool.and_eq_true, Bool.or_eq_true, Bool.not_eq_true', bne_iff_ne, decide_eq_true_eq]
    constructor
    · rintro ⟨hne, h⟩ habs
      rcases habs with h0 | ⟨hint, hge⟩
      · exact hne h0
      · rcases h with h | h
        · rw [hint] at h; cases h
        · exact absurd hge (not_le.mpr h)
    · intro h
      push_neg at h
      obtain ⟨hne, hrange⟩ := h
      refine ⟨hne, ?_⟩
      by_cases hint : isInteger c.page = true
      · exact Or.inr (hrange hint)
      · exact Or.inl (Bool.eq_false_iff.mpr hint)
  have g2 : (((c.perPage != 0) &&
        (!(isInteger c.perPage) || decide (c.perPage < 1) || decide (100 < c.perPage))) = true) ↔
      ¬(c.perPage = 0 ∨ (isInteger c.perPage = true ∧ 1 ≤ c.perPage ∧ c.perPage ≤ 100)) := by
    rw [Bool.and_eq_true, Bool.or_eq_true, Bool.or_eq_true, Bool.not_eq_true', bne_iff_ne,
      decide_eq_true_eq, decide_eq_true_eq]
    constructor
    · rintro ⟨hne, h⟩ habs
      rcases habs with h0 | ⟨hint, hge, hle⟩
      · exact hne h0
      · rcases h with (h | h) | h
        · rw [hint] at h; cases h
        · exact absurd hge (not_le.mpr h)
        · exact absurd hle (not_le.mpr h)
    · intro h
      push_neg at h
      obtain ⟨hne, hrange⟩ := h
      refine ⟨hne, ?_⟩
      by_cases hint : isInteger c.perPage = true
      · by_cases hge : 1 ≤ c.perPage
        · exact Or.inr (hrange hint hge)
        · exact Or.inl (Or.inr (not_le.mp hge))
      · exact Or.inl (Or.inl (Bool.eq_false_iff.mpr hint))
  have g3 : (((c.sort != "") && !(validSortOptions.contains c.sort)) = true) ↔
      ¬(c.sort = "" ∨ c.sort ∈ validSortOptions) := by
    rw [Bool.and_eq_true, Bool.not_eq_true', bne_iff_ne]
    constructor
    · rintro ⟨hne, hmem⟩ habs
      rcases habs with h0 | h0
      · exact hne h0
      · simp at hmem
        exact hmem h0
    · intro h
      push_neg at h
      obtain ⟨hne, hmem⟩ := h
      exact ⟨hne, by simp [hmem]⟩
  have g4 : (((c.direction != "") && !(validDirections.contains c.direction)) = true) ↔
      ¬(c.direction = "" ∨ c.direction ∈ validDirections) := by
    rw [Bool.and_eq_true, Bool.not_eq_true', bne_iff_ne]
    constructor
    · rintro ⟨hne, hmem⟩ habs
      rcases habs with h0 | h0
      · exact hne h0
      · simp at hmem
        exact hmem h0
    · intro h
      push_neg at h
      obtain ⟨hne, hmem⟩ := h
      exact ⟨hne, by simp [hmem]⟩
  have hm : (match JsVal.str u with | .str s => jsTrim s != "" | _ => false) = true := by
    simp [hu]
  unfold GetUserRepositoriesUseCase.validateInput
  rw [hm]
  simp only [Bool.true_eq_false, if_false]
  split_ifs with h1 h2 h3 h4
  · constructor
    · intro habs; cases habs
    · intro hr; exact absurd hr.1 (g1.mp h1)
  · constructor
    · intro habs; cases habs
    · intro hr; exact absurd hr.2.1 (g2.mp h2)
  · constructor
    · intro habs; cases habs
    · intro hr; exact absurd hr.2.2.1 (g3.mp h3)
  · constructor
    · intro habs; cases habs
    · intro hr; exact absurd hr.2.2.2 (g4.mp h4)
  · constructor
    · intro _
      exact ⟨not_not.mp (fun hn => h1 (g1.mpr hn)), not_not.mp (fun hn => h2 (g2.mpr hn)),
        not_not.mp (fun hn => h3 (g3.mpr hn)), not_not.mp (fun hn => h4 (g4.mpr hn))⟩
    · intro _; rfl

/-- C6 witness: the default merged configuration passes validation. -/
theorem c6_truthy_validation_witness :
    GetUserRepositoriesUseCase.validateInput (.str "octocat") (mergeOptions {}) = .ok () :=
  (c6_truthy_validation "octocat" (mergeOptions {}) (by decide)).mpr
    ⟨Or.inr ⟨by decide, by norm_num [mergeOptions]⟩,
     Or.inr ⟨by decide, by norm_num [mergeOptions], by norm_num [mergeOptions]⟩,
     Or.inr (by decide), Or.inr (by decide)⟩

/-- C1: with retryAttempts 3, a persistent 503 makes request perform
exactly 3 underlying calls and throw the transformed error, which is a
NetworkError; a first-attempt 404 short-circuits after exactly 1 call and
throws, also as a NetworkError. Quantified over every other field of the
axios errors. -/
theorem c1_retry_boundary (now : ℚ)
    (m1 st1 : String) (cd1 dm1 hl1 : Option String) (hr1 : Option ℚ)
    (m2 st2 : String) (cd2 dm2 hl2 : Option String) (hr2 : Option ℚ) :
    (HttpClient.request 3 now (fun _ => .inr (.axios m1 cd1 (some 503) st1 dm1 hl1 hr1))).1 = 3 ∧
    (HttpClient.request 3 now (fun _ => .inr (.axios m1 cd1 (some 503) st1 dm1 hl1 hr1))).2 =
      .error (HttpClient.transformError now (.axios m1 cd1 (some 503) st1 dm1 hl1 hr1)) ∧
    (HttpClient.transformError now (.axios m1 cd1 (some 503) st1 dm1 hl1 hr1)).tag =
      ErrTag.network ∧
    (HttpClient.request 3 now (fun _ => .inr (.axios m2 cd2 (some 404) st2 dm2 hl2 hr2))).1 = 1 ∧
    (HttpClient.request 3 now (fun _ => .inr (.axios m2 cd2 (some 404) st2 dm2 hl2 hr2))).2 =
      .error (HttpClient.transformError now (.axios m2 cd2 (some 404) st2 dm2 hl2 hr2)) ∧
    (HttpClient.transformError now (.axios m2 cd2 (some 404) st2 dm2 hl2 hr2)).tag =
      ErrTag.network := by
  have hretry503 : ∀ a, a < 3 →
      HttpClient.shouldRetry 3 (.axios m1 cd1 (some 503) st1 dm1 hl1 hr1) a = true := by
    intro a ha
    unfold HttpClient.shouldRetry
    rw [if_neg (by omega)]
    simp
  have hstop503 : HttpClient.shouldRetry 3 (.axios m1 cd1 (some 503) st1 dm1 hl1 hr1) 3 = false := by
    unfold HttpClient.shouldRetry
    rw [if_pos (by omega)]
  have hstop404 : ∀ a, HttpClient.shouldRetry 3 (.axios m2 cd2 (some 404) st2 dm2 hl2 hr2) a = false := by
    intro a
    unfold HttpClient.shouldRetry
    by_cases ha : 3 ≤ a
    · rw [if_pos ha]
    · rw [if_neg ha]
      simp
  refine ⟨?_, ?_, rfl, ?_, ?_, rfl⟩
  · show (HttpClient.requestAux 3 now _ 1 3).1 = 3
    simp [HttpClient.requestAux, hretry503, hstop503]
  · show (HttpClient.requestAux 3 now _ 1 3).2 = _
    simp [HttpClient.requestAux, hretry503, hstop503]
  · show (HttpClient.requestAux 3 now _ 1 3).1 = 1
    simp [HttpClient.requestAux, hstop404]
  · show (HttpClient.requestAux 3 now _ 1 3).2 = _
    simp [HttpClient.requestAux, hstop404]

/-- C2: the username format test accepts the identifier a- although it
ends with a hyphen, so execute proceeds past validation to one repository
fetch instead of rejecting with ValidationError before any network call
(the ValidationError message itself documents that usernames cannot end
with a hyphen). -/
theorem c2_trailing_hyphen_accepted :
    GetUserUseCase.validateInput (.str "a-") = .ok () ∧
    "a-".data.getLast? = some '-' ∧
    (GetUserUseCase.execute (fun _ => .error (.networkError "HTTP 404: Not Found" none))
      (.str "a-") true false [] 0).2.2 = 1 :=
  ⟨rfl, by decide, rfl⟩

/-- C4: the cache round trip is broken - toJSON serializes with camel-case
keys while fromGitHubAPI reads snake-case keys, so rebuilding the cached
user throws and the read is swallowed into a miss. Two sequential execute
calls with caching enabled therefore perform one repository fetch each
(two in total) and the second is not served from the cache. -/
theorem c4_cache_roundtrip_bug :
    User.fromGitHubAPI octocatPayload = .ok octocatUser ∧
    User.fromGitHubAPI (jsonRoundtrip (User.toJSON 0 octocatUser)) =
      .error (.plainError "User avatar URL is required") ∧
    GetUserUseCase.execute octocatRemote (.str "octocat") true false [] 0 =
      (.ok (octocatUser, false),
        [("github:user:octocat", jsonRoundtrip (User.toJSON 0 octocatUser), some (300000 : ℚ))],
        1) ∧
    GetUserUseCase.execute octocatRemote (.str "octocat") true false
        [("github:user:octocat", jsonRoundtrip (User.toJSON 0 octocatUser), some (300000 : ℚ))] 0 =
      (.ok (octocatUser, false),
        [("github:user:octocat", jsonRoundtrip (User.toJSON 0 octocatUser),
          some ((0 : ℚ) + 300 * 1000))],
        1) := by
  refine ⟨rfl, rfl, ?_, rfl⟩
  have e1 : GetUserUseCase.execute octocatRemote (.str "octocat") true false [] 0 =
      (.ok (octocatUser, false),
        [("github:user:octocat", jsonRoundtrip (User.toJSON 0 octocatUser),
          some ((0 : ℚ) + 300 * 1000))],
        1) := rfl
  rw [e1]
  norm_num

/-- C8: the categorization and the analytics of processRepositories are
computed over the full fetched set, independent of every filter option;
concretely, on five items with two forks, a fork-type request returns
exactly the two forks while the original partition still holds all three
originals. -/
theorem c8_categorization_full_set (now : ℚ) (repositories : List Repository)
    (options : RepoConfig) :
    (GetUserRepositoriesUseCase.processRepositories now repositories options).categorization =
      GetUserRepositoriesUseCase.categorizeRepositories now repositories ∧
    (GetUserRepositoriesUseCase.processRepositories now repositories options).analytics =
      (if options.includeAnalytics then
        GetUserRepositoriesUseCase.generateAnalytics now repositories
       else none) ∧
    (GetUserRepositoriesUseCase.processRepositories 0 fiveRepos
        (mergeOptions { type := some "fork" })).repositories =
      [mkTestRepo "fork1" true, mkTestRepo "fork2" true] ∧
    (GetUserRepositoriesUseCase.processRepositories 0 fiveRepos
        (mergeOptions { type := some "fork" })).filteredCount = 2 ∧
    (GetUserRepositoriesUseCase.processRepositories 0 fiveRepos
        (mergeOptions { type := some "fork" })).categorization.byType.original =
      [mkTestRepo "orig1" false, mkTestRepo "orig2" false, mkTestRepo "orig3" false] ∧
    (GetUserRepositoriesUseCase.processRepositories 0 fiveRepos
        (mergeOptions { type := some "fork" })).totalCount = 5 :=
  ⟨rfl, rfl, rfl, rfl, rfl, rfl⟩
